import Mathlib

/-!
Verification of the marshaling and dispatch layer in
ext/numo/libsvm/libsvm.c (numo-libsvm): dense-to-sparse sample
conversion, parameter/model handling, prediction dispatch, persistence,
and native-allocation lifetime. The external LIBSVM engine is abstract:
only its interface is modelled, as a structure of functions.
Machine doubles are modelled as rationals; the layer itself performs no
floating-point arithmetic, it only copies values.
-/

/-- The five SVM task types of the external engine (svm_type enum). -/
inductive SvmType where
  | C_SVC
  | NU_SVC
  | ONE_CLASS
  | EPSILON_SVR
  | NU_SVR
deriving DecidableEq, Repr

/-- The kernel families of the external engine (kernel_type enum). -/
inductive KernelType where
  | LINEAR
  | POLY
  | RBF
  | SIGMOID
  | PRECOMPUTED
deriving DecidableEq, Repr

/-- One sparse feature node (struct svm_node): an index/value pair. -/
structure SvmNode where
  index : Int
  value : ℚ
deriving DecidableEq, Repr

/-- The external engine's parameter struct (struct svm_parameter). -/
structure SvmParameter where
  svm_type : SvmType
  kernel_type : KernelType
  degree : Int
  gamma : ℚ
  coef0 : ℚ
  cache_size : ℚ
  eps : ℚ
  C : ℚ
  nu : ℚ
  p : ℚ
  nr_weight : Int
  weight_label : List Int
  weight : List ℚ
  shrinking : Int
  probability : Int
deriving DecidableEq, Repr

/-- The external engine's trained-model struct (struct svm_model).
probA / probB / label / nSV are nullable in C, hence Option here. -/
structure SvmModel where
  param : SvmParameter
  nr_class : Nat
  l : Nat
  SV : List (List SvmNode)
  sv_coef : List (List ℚ)
  rho : List ℚ
  probA : Option (List ℚ)
  probB : Option (List ℚ)
  label : Option (List Int)
  nSV : Option (List Nat)
  free_sv : Int
deriving DecidableEq, Repr

/-- struct svm_problem: sample count, per-sample node arrays, targets. -/
structure SvmProblem where
  l : Nat
  x : List (List SvmNode)
  y : List ℚ
deriving DecidableEq, Repr

/-- A dense float64 input matrix as seen through the NArray API: the
shape header [n_samples, n_features] plus the flat row-major storage.
The C code never checks data against the shape header. -/
structure DMat where
  n_samples : Nat
  n_features : Nat
  data : List ℚ
deriving DecidableEq, Repr

/-- x_pt[i * n_features + j]: a raw row-major pointer read. An index
beyond the storage is undefined behaviour in C; it is collapsed to the
value 0 here, standing for whatever junk the read would return. -/
def DMat.elem (x : DMat) (i j : Nat) : ℚ :=
  x.data.getD (i * x.n_features + j) 0

/-- A dense output tensor as produced through rb_narray_new:
dimension count, shape, and flat row-major data. -/
structure NArr where
  ndim : Nat
  shape : List Nat
  data : List ℚ
deriving DecidableEq, Repr

/-- The error classes this layer can surface to Ruby. -/
inductive RubyErr where
  | invalidParameterError
  | invalidModelError
  | shapeMismatchError
  | typeError
deriving DecidableEq, Repr

/-- Equality of Except results is decidable when both sides are. -/
instance [DecidableEq e] [DecidableEq a] : DecidableEq (Except e a)
  | Except.error x, Except.error y =>
    if h : x = y then isTrue (congrArg Except.error h)
    else isFalse (fun hc => h (Except.error.inj hc))
  | Except.error _, Except.ok _ => isFalse (fun hc => Except.noConfusion hc)
  | Except.ok _, Except.error _ => isFalse (fun hc => Except.noConfusion hc)
  | Except.ok x, Except.ok y =>
    if h : x = y then isTrue (congrArg Except.ok h)
    else isFalse (fun hc => h (Except.ok.inj hc))

/-- The external LIBSVM engine, kept abstract behind its interface.
Entry points that fill a caller-supplied output buffer
(svm_predict_values, svm_predict_probability, svm_cross_validation) are
modelled as the value the engine writes at each slot of that buffer. -/
structure Engine where
  svm_train : SvmProblem → SvmParameter → SvmModel
  svm_predict : SvmModel → List SvmNode → ℚ
  svm_predict_values : SvmModel → List SvmNode → Nat → ℚ
  svm_predict_probability : SvmModel → List SvmNode → Nat → ℚ
  svm_cross_validation : SvmProblem → SvmParameter → Int → Nat → ℚ
  svm_load_model : String → Option SvmModel
  svm_save_model : String → SvmModel → Int

/-- The statement model->param = *param executed by predict,
decision_function, predict_proba and save_svm_model: the caller-supplied
parameter record overwrites the decoded model's embedded parameter. -/
def effectiveModel (param : SvmParameter) (m : SvmModel) : SvmModel :=
  ⟨param, m.nr_class, m.l, m.SV, m.sv_coef, m.rho,
   m.probA, m.probB, m.label, m.nSV, m.free_sv⟩

/-- The branch condition of decision_function: the svm_type is
ONE_CLASS, EPSILON_SVR or NU_SVR (one decision value per sample). -/
def regressionType (t : SvmType) : Bool :=
  t == SvmType.ONE_CLASS || t == SvmType.EPSILON_SVR || t == SvmType.NU_SVR

/-- The sparse conversion of row i of a dense matrix: nodes
{index = j + 1, value = x[i][j]} for j < n_features followed by the
sentinel {-1, 0}. This is the node array the training loops build at
problem->x[i], and what each prediction-loop pass leaves in the shared
buffer. -/
def sampleNodes (x : DMat) (i : Nat) : List SvmNode :=
  (List.range x.n_features).map (fun j => ⟨(j : Int) + 1, x.elem i j⟩) ++ [⟨-1, 0⟩]

/-- The svm_problem filled identically by train and cross_validation:
l = n_samples taken from x's shape header, x[i] the sparse conversion of
row i, y[i] = y_pt[i] copied with no check of y's length (a read past
the end of y is the value 0 here, standing for the junk the C reads). -/
def buildProblem (x : DMat) (y : List ℚ) : SvmProblem :=
  ⟨x.n_samples,
   (List.range x.n_samples).map (sampleNodes x),
   (List.range x.n_samples).map (fun i => y.getD i 0)⟩

/-- One pass of a prediction loop over the shared node buffer: for each
j < n_features overwrite buf[j] in place with {j + 1, x[i][j]}
(x_nodes[j].index = j + 1; x_nodes[j].value = x_pt[i * n_features + j]).
The sentinel cell at position n_features is not touched. -/
def writeRow (x : DMat) (i : Nat) (buf : List SvmNode) : List SvmNode :=
  (List.range x.n_features).foldl (fun b j => b.set j ⟨(j : Int) + 1, x.elem i j⟩) buf

/-- ALLOC_N(struct svm_node, n_features + 1) followed by writing the
sentinel once at position n_features; junk models the contents of the
uninitialized allocation. -/
def initNodeBuf (nf : Nat) (junk : Nat → SvmNode) : List SvmNode :=
  ((List.range (nf + 1)).map junk).set nf ⟨-1, 0⟩

/-- The batch loop shared by predict, decision_function and
predict_proba: a single node buffer threaded through all rows, each
iteration overwriting it in place and appending the engine's answer for
the current row to the output. -/
def batchLoop (x : DMat) (g : List SvmNode → β) (idxs : List Nat)
    (st : List SvmNode × List β) : List SvmNode × List β :=
  idxs.foldl (fun acc i => (writeRow x i acc.1, acc.2 ++ [g (writeRow x i acc.1)])) st

/-- train: decode the parameter hash, build the problem with no shape
validation, run svm_train and transcribe the model back to a hash.
Modelled from the spec: rb_hash_to_svm_parameter is not under src/;
spec 4.1 says it fails with InvalidParameterError on a malformed
mapping, so its outcome is the argument decP; svm_model_to_rb_hash
transcribes every field and is represented by the model record itself. -/
def train (eng : Engine) (x : DMat) (y : List ℚ)
    (decP : Except RubyErr SvmParameter) : Except RubyErr SvmModel :=
  match decP with
  | Except.error e => Except.error e
  | Except.ok param => Except.ok (eng.svm_train (buildProblem x y) param)

/-- cross_validation: identical problem construction, then the engine
fills a freshly allocated length-n_samples target buffer. -/
def cross_validation (eng : Engine) (x : DMat) (y : List ℚ)
    (decP : Except RubyErr SvmParameter) (n_folds : Int) : Except RubyErr (List ℚ) :=
  match decP with
  | Except.error e => Except.error e
  | Except.ok param =>
      Except.ok ((List.range x.n_samples).map
        (eng.svm_cross_validation (buildProblem x y) param n_folds))

/-- predict (post-decode core): override the model's embedded parameter,
allocate one node buffer, write the sentinel once, then loop over the
rows reusing the buffer, collecting svm_predict's answer per row. -/
def predict (eng : Engine) (junk : Nat → SvmNode) (x : DMat)
    (param : SvmParameter) (m0 : SvmModel) : List ℚ :=
  let model := effectiveModel param m0
  (batchLoop x (fun b => eng.svm_predict model b) (List.range x.n_samples)
    (initNodeBuf x.n_features junk, [])).2

/-- decision_function (post-decode core): override the model's embedded
parameter, then branch on the (overridden) svm_type: the regression and
one-class types produce a 1-D array of n_samples values, each written by
svm_predict_values straight into the output; the classification types
produce an [n_samples, nr_class*(nr_class-1)/2] matrix, copying that
many values per row out of the dec_values buffer. Both branches reuse
one node buffer across rows. -/
def decision_function (eng : Engine) (junk : Nat → SvmNode) (x : DMat)
    (param : SvmParameter) (m0 : SvmModel) : NArr :=
  let model := effectiveModel param m0
  let n := x.n_samples
  if regressionType model.param.svm_type then
    ⟨1, [n],
     (batchLoop x (fun b => eng.svm_predict_values model b 0) (List.range n)
       (initNodeBuf x.n_features junk, [])).2⟩
  else
    let w := model.nr_class * (model.nr_class - 1) / 2
    ⟨2, [n, w],
     ((batchLoop x (fun b => (List.range w).map (eng.svm_predict_values model b))
       (List.range n) (initNodeBuf x.n_features junk, [])).2).flatten⟩

/-- The guard at line 365: probability output is produced only when the
overridden svm_type is C_SVC or NU_SVC and both probA and probB are
non-null on the decoded model. -/
def supportedProba (param : SvmParameter) (m0 : SvmModel) : Bool :=
  let model := effectiveModel param m0
  (model.param.svm_type == SvmType.C_SVC || model.param.svm_type == SvmType.NU_SVC)
    && model.probA.isSome && model.probB.isSome

/-- predict_proba (post-decode): override the model's embedded
parameter, then test the support guard. Only inside the supported
branch is x cast to a dense float64 matrix and read; xr is the outcome
of that cast (the numeric runtime raises typeError on an uncastable
input). In the unsupported branch y_val stays nil: the function returns
an absent result and never touches x. -/
def predict_proba (eng : Engine) (junk : Nat → SvmNode)
    (xr : Except RubyErr DMat) (param : SvmParameter) (m0 : SvmModel) :
    Except RubyErr (Option NArr) :=
  let model := effectiveModel param m0
  if supportedProba param m0 then
    match xr with
    | Except.error e => Except.error e
    | Except.ok x =>
        let n := x.n_samples
        let nc := model.nr_class
        Except.ok (some
          ⟨2, [n, nc],
           ((batchLoop x (fun b => (List.range nc).map (eng.svm_predict_probability model b))
             (List.range n) (initNodeBuf x.n_features junk, [])).2).flatten⟩)
  else
    Except.ok none

/-- A heap of native (xfree-managed) allocations: a fresh-id counter and
the list of live allocation ids. -/
structure Heap where
  next : Nat
  live : List Nat
deriving DecidableEq, Repr

/-- ALLOC / ALLOC_N: returns the new allocation's id. -/
def Heap.alloc (h : Heap) : Nat × Heap :=
  (h.next, ⟨h.next + 1, h.next :: h.live⟩)

/-- xfree / the engine's own destroy routine. -/
def Heap.free (h : Heap) (a : Nat) : Heap :=
  ⟨h.next, h.live.erase a⟩

/-- load_svm_model: delegate to the engine's svm_load_model; a null
model yields [nil, nil] without raising; otherwise both hashes are
transcribed from the native model, which svm_free_and_destroy_model
releases in the same call. The transcribed hashes are represented by
the records themselves (the codec files are not under src/; spec 4.1
and 4.2 describe them as faithful transcriptions). -/
def load_svm_model (eng : Engine) (path : String) (h : Heap) :
    (Option SvmParameter × Option SvmModel) × Heap :=
  match eng.svm_load_model path with
  | none => ((none, none), h)
  | some m =>
      let (mid, h1) := h.alloc
      ((some m.param, some m), h1.free mid)

/-- save_svm_model: decode both hashes, merge the caller parameter into
the model's embedded parameter, delegate to svm_save_model, and map a
negative status to false. -/
def save_svm_model (eng : Engine) (path : String) (param : SvmParameter)
    (m0 : SvmModel) : Bool :=
  let model := effectiveModel param m0
  if eng.svm_save_model path model < 0 then false else true

/-- predict with its native allocations tracked, following the source
order: cast x (nothing allocated yet on a typeError), decode the
parameter hash (one native record on success), decode the model hash
(one native record on success), allocate the node buffer, run the loop,
then xfree the buffer, the model and the parameter. A raised decoder
exception propagates immediately, past the frees at the end of the
function. Modelled from the spec: the two decoders are not under src/
and are represented by their outcomes decP / decM (spec 4.1 and 4.2:
they fail with InvalidParameterError / InvalidModelError on malformed
mappings and are self-contained on their own failure). -/
def predictTracked (eng : Engine) (junk : Nat → SvmNode)
    (xr : Except RubyErr DMat) (decP : Except RubyErr SvmParameter)
    (decM : Except RubyErr SvmModel) (h : Heap) :
    Except RubyErr (List ℚ) × Heap :=
  match xr with
  | Except.error e => (Except.error e, h)
  | Except.ok x =>
    match decP with
    | Except.error e => (Except.error e, h)
    | Except.ok param =>
      let (pid, h1) := h.alloc
      match decM with
      | Except.error e => (Except.error e, h1)
      | Except.ok m0 =>
        let (mid, h2) := h1.alloc
        let (bid, h3) := h2.alloc
        (Except.ok (predict eng junk x param m0), ((h3.free bid).free mid).free pid)

/-- The spec's naive reading of the batch predict path: a fresh sparse
conversion allocated for every row. -/
def predictFresh (eng : Engine) (x : DMat) (param : SvmParameter) (m0 : SvmModel) : List ℚ :=
  (List.range x.n_samples).map
    (fun i => eng.svm_predict (effectiveModel param m0) (sampleNodes x i))

/-- The spec's naive reading of decision_function: a fresh sparse
conversion per row, same dispatch and shapes. -/
def decision_functionFresh (eng : Engine) (x : DMat) (param : SvmParameter)
    (m0 : SvmModel) : NArr :=
  let model := effectiveModel param m0
  let n := x.n_samples
  if regressionType model.param.svm_type then
    ⟨1, [n], (List.range n).map (fun i => eng.svm_predict_values model (sampleNodes x i) 0)⟩
  else
    let w := model.nr_class * (model.nr_class - 1) / 2
    ⟨2, [n, w],
     ((List.range n).map
       (fun i => (List.range w).map (eng.svm_predict_values model (sampleNodes x i)))).flatten⟩

/-- The spec's naive reading of predict_proba: a fresh sparse conversion
per row in the supported branch. -/
def predict_probaFresh (eng : Engine) (xr : Except RubyErr DMat)
    (param : SvmParameter) (m0 : SvmModel) : Except RubyErr (Option NArr) :=
  let model := effectiveModel param m0
  if supportedProba param m0 then
    match xr with
    | Except.error e => Except.error e
    | Except.ok x =>
        let n := x.n_samples
        let nc := model.nr_class
        Except.ok (some
          ⟨2, [n, nc],
           ((List.range n).map
             (fun i => (List.range nc).map
               (eng.svm_predict_probability model (sampleNodes x i)))).flatten⟩)
  else
    Except.ok none

/-- Concrete junk contents for an uninitialized node buffer. -/
def junk0 : Nat → SvmNode := fun _ => ⟨0, 0⟩

/-- A concrete 2-by-2 dense matrix. -/
def x2 : DMat := ⟨2, 2, [1, 2, 3, 4]⟩

/-- A concrete parameter record with svm_type C_SVC. -/
def defaultParam : SvmParameter :=
  ⟨SvmType.C_SVC, KernelType.RBF, 3, 0, 0, 100, 1, 1, 1, 1, 0, [], [], 1, 0⟩

/-- The same parameter record with svm_type EPSILON_SVR. -/
def pReg : SvmParameter :=
  ⟨SvmType.EPSILON_SVR, KernelType.RBF, 3, 0, 0, 100, 1, 1, 1, 1, 0, [], [], 1, 0⟩

/-- A concrete two-class model without probability calibration. Its
embedded parameter has svm_type C_SVC. -/
def m0base : SvmModel :=
  ⟨defaultParam, 2, 1, [[⟨-1, 0⟩]], [[1]], [0], none, none, some [0, 1], some [1, 1], 1⟩

/-- The same model with probability calibration (probA and probB set). -/
def mProb : SvmModel :=
  ⟨defaultParam, 2, 1, [[⟨-1, 0⟩]], [[1]], [0], some [0], some [0], some [0, 1], some [1, 1], 1⟩

/-- A concrete engine; its load entry point always fails. -/
def eng0 : Engine :=
  ⟨fun _ _ => m0base, fun _ _ => 0, fun _ _ _ => 0, fun _ _ _ => 0,
   fun _ _ _ _ => 0, fun _ => none, fun _ _ => 0⟩

/-- A concrete engine whose load entry point succeeds with mProb. -/
def engOk : Engine :=
  ⟨fun _ _ => m0base, fun _ _ => 0, fun _ _ _ => 0, fun _ _ _ => 0,
   fun _ _ _ _ => 0, fun _ => some mProb, fun _ _ => 0⟩

/-- The empty heap. -/
def h0 : Heap := ⟨0, []⟩

/-! ### List helper lemmas -/

theorem set_append_length (A : List α) (b v : α) (t : List α) :
    (A ++ b :: t).set A.length v = A ++ v :: t := by
  induction A with
  | nil => rfl
  | cons a A ih =>
      show a :: ((A ++ b :: t).set A.length v) = a :: (A ++ v :: t)
      rw [ih]

theorem getElem?_concat_len (A : List α) (s : α) : (A ++ [s])[A.length]? = some s :=
  List.getElem?_concat_length A s

/-- Folding in-place writes of f over range k rewrites the first k
cells of the buffer and leaves the tail alone. -/
theorem foldl_set_range (f : Nat → α) :
    ∀ (k : Nat) (buf : List α), k ≤ buf.length →
      (List.range k).foldl (fun b j => b.set j (f j)) buf
        = (List.range k).map f ++ buf.drop k := by
  intro k
  induction k with
  | zero => intro buf _; simp
  | succ k ih =>
      intro buf h
      have hk : k < buf.length := Nat.lt_of_succ_le h
      have hlen := set_append_length ((List.range k).map f)
        (buf[k]) (f k) (buf.drop (k + 1))
      simp only [List.length_map, List.length_range] at hlen
      calc (List.range (k + 1)).foldl (fun b j => b.set j (f j)) buf
          = ((List.range k).foldl (fun b j => b.set j (f j)) buf).set k (f k) := by
            rw [List.range_succ, List.foldl_append]
            rfl
        _ = ((List.range k).map f ++ buf.drop k).set k (f k) := by
            rw [ih buf (Nat.le_of_succ_le h)]
        _ = ((List.range k).map f ++ buf[k] :: buf.drop (k + 1)).set k (f k) := by
            rw [← List.drop_eq_getElem_cons hk]
        _ = (List.range k).map f ++ f k :: buf.drop (k + 1) := hlen
        _ = (List.range (k + 1)).map f ++ buf.drop (k + 1) := by
            rw [List.range_succ, List.map_append]
            simp

/-- A full loop pass over a well-formed buffer (right length, sentinel
in the last cell) leaves exactly the fresh sparse conversion of row i. -/
theorem writeRow_eq (x : DMat) (i : Nat) (buf : List SvmNode)
    (hl : buf.length = x.n_features + 1)
    (hs : buf[x.n_features]? = some ⟨-1, 0⟩) :
    writeRow x i buf = sampleNodes x i := by
  unfold writeRow sampleNodes
  rw [foldl_set_range (fun (j : Nat) => (⟨(j : Int) + 1, x.elem i j⟩ : SvmNode))
    x.n_features buf (by omega)]
  have hk : x.n_features < buf.length := by omega
  have hdrop : buf.drop x.n_features = buf[x.n_features] :: buf.drop (x.n_features + 1) :=
    List.drop_eq_getElem_cons hk
  have hnil : buf.drop (x.n_features + 1) = [] := by
    have h2 := List.drop_length buf
    rw [hl] at h2
    exact h2
  have hval : buf[x.n_features] = (⟨-1, 0⟩ : SvmNode) := by
    have := List.getElem?_eq_getElem hk
    rw [this] at hs
    exact Option.some.inj hs
  rw [hdrop, hnil, hval]

theorem sampleNodes_length (x : DMat) (i : Nat) :
    (sampleNodes x i).length = x.n_features + 1 := by
  simp [sampleNodes]

theorem sampleNodes_sentinel (x : DMat) (i : Nat) :
    (sampleNodes x i)[x.n_features]? = some ⟨-1, 0⟩ := by
  simp [sampleNodes]

theorem initNodeBuf_eq (nf : Nat) (junk : Nat → SvmNode) :
    initNodeBuf nf junk = (List.range nf).map junk ++ [⟨-1, 0⟩] := by
  unfold initNodeBuf
  rw [List.range_succ, List.map_append]
  have h := set_append_length ((List.range nf).map junk) (junk nf)
    (⟨-1, 0⟩ : SvmNode) []
  simp only [List.length_map, List.length_range] at h
  exact h

theorem initNodeBuf_length (nf : Nat) (junk : Nat → SvmNode) :
    (initNodeBuf nf junk).length = nf + 1 := by
  rw [initNodeBuf_eq]
  simp

theorem initNodeBuf_sentinel (nf : Nat) (junk : Nat → SvmNode) :
    (initNodeBuf nf junk)[nf]? = some ⟨-1, 0⟩ := by
  rw [initNodeBuf_eq]
  simp

/-- The reused-buffer batch loop produces exactly the per-row engine
answers on fresh sparse conversions, for any starting buffer with the
right length and the sentinel in place. -/
theorem batchLoop_spec (x : DMat) (g : List SvmNode → β) :
    ∀ (idxs : List Nat) (buf : List SvmNode) (out : List β),
      buf.length = x.n_features + 1 → buf[x.n_features]? = some ⟨-1, 0⟩ →
      (batchLoop x g idxs (buf, out)).2 = out ++ idxs.map (fun i => g (sampleNodes x i)) := by
  intro idxs
  induction idxs with
  | nil =>
      intro buf out h1 h2
      simp [batchLoop]
  | cons i idxs ih =>
      intro buf out h1 h2
      have hw : writeRow x i buf = sampleNodes x i := writeRow_eq x i buf h1 h2
      have step : batchLoop x g (i :: idxs) (buf, out)
          = batchLoop x g idxs (writeRow x i buf, out ++ [g (writeRow x i buf)]) := rfl
      rw [step, hw,
        ih (sampleNodes x i) (out ++ [g (sampleNodes x i)])
          (sampleNodes_length x i) (sampleNodes_sentinel x i)]
      simp

/-- predict's reused buffer is unobservable: the output is the per-row
fresh-conversion map. -/
theorem predict_eq_fresh (eng : Engine) (junk : Nat → SvmNode) (x : DMat)
    (param : SvmParameter) (m0 : SvmModel) :
    predict eng junk x param m0 = predictFresh eng x param m0 := by
  unfold predict predictFresh
  rw [batchLoop_spec x _ (List.range x.n_samples) (initNodeBuf x.n_features junk) []
    (initNodeBuf_length x.n_features junk) (initNodeBuf_sentinel x.n_features junk)]
  simp

/-- The batch loop started on a fresh initialized buffer yields the
per-row fresh-conversion map. -/
theorem batchLoop_init (x : DMat) (junk : Nat → SvmNode) (g : List SvmNode → β) :
    (batchLoop x g (List.range x.n_samples) (initNodeBuf x.n_features junk, [])).2
      = (List.range x.n_samples).map (fun i => g (sampleNodes x i)) := by
  rw [batchLoop_spec x g (List.range x.n_samples) (initNodeBuf x.n_features junk) []
    (initNodeBuf_length x.n_features junk) (initNodeBuf_sentinel x.n_features junk)]
  simp

theorem decision_function_eq_fresh (eng : Engine) (junk : Nat → SvmNode) (x : DMat)
    (param : SvmParameter) (m0 : SvmModel) :
    decision_function eng junk x param m0 = decision_functionFresh eng x param m0 := by
  unfold decision_function decision_functionFresh
  by_cases h : regressionType (effectiveModel param m0).param.svm_type
  · simp [h, batchLoop_init]
  · simp [h, batchLoop_init]

theorem predict_proba_eq_fresh (eng : Engine) (junk : Nat → SvmNode)
    (xr : Except RubyErr DMat) (param : SvmParameter) (m0 : SvmModel) :
    predict_proba eng junk xr param m0 = predict_probaFresh eng xr param m0 := by
  unfold predict_proba predict_probaFresh
  by_cases h : supportedProba param m0
  · cases xr with
    | error e => simp [h]
    | ok x => simp [h, batchLoop_init]
  · simp [h]

/-- Flat length of n rows of w copied values each. -/
theorem flatten_map_range_length (f : Nat → Nat → α) (n w : Nat) :
    (((List.range n).map (fun i => (List.range w).map (f i))).flatten).length = n * w := by
  rw [List.length_flatten, List.map_map]
  have h : (List.length ∘ fun i => (List.range w).map (f i)) = fun (_ : Nat) => w := by
    funext i
    simp
  rw [h, List.map_const', List.length_range, List.sum_const_nat]

/-- Reading back a list elementwise by index reproduces it. -/
theorem map_getD_range (y : List ℚ) (n : Nat) (hy : y.length = n) :
    (List.range n).map (fun i => y.getD i 0) = y := by
  apply List.ext_getElem?
  intro i
  by_cases h : i < n
  · rw [List.getElem?_map, List.getElem?_range h]
    have hi : i < y.length := by omega
    rw [List.getElem?_eq_getElem hi]
    simp [List.getD_eq_getElem?_getD, List.getElem?_eq_getElem hi]
  · rw [List.getElem?_map]
    have h1 : (List.range n)[i]? = none := by
      rw [List.getElem?_eq_none_iff]
      simp
      omega
    have h2 : y[i]? = none := by
      rw [List.getElem?_eq_none_iff]
      omega
    rw [h1, h2]
    rfl

theorem effectiveModel_param (param : SvmParameter) (m : SvmModel) :
    (effectiveModel param m).param = param := rfl

theorem effectiveModel_nr_class (param : SvmParameter) (m : SvmModel) :
    (effectiveModel param m).nr_class = m.nr_class := rfl

/-- Total length of n rows of w values each, in the composed form simp
leaves behind. -/
theorem sum_map_length_const (f : Nat → Nat → α) (n w : Nat) :
    ((List.range n).map (List.length ∘ fun i => (List.range w).map (f i))).sum = n * w := by
  have h : (List.length ∘ fun i => (List.range w).map (f i)) = fun (_ : Nat) => w := by
    funext i
    simp
  rw [h, List.map_const', List.length_range, List.sum_const_nat]

/-! ### Claim theorems -/

/-- Claim C1: for every model and input matrix, decision_function
produces a flat vector of length n_samples (ndim 1) when the effective
svm_type is ONE_CLASS, EPSILON_SVR or NU_SVR, and otherwise a matrix of
shape [n_samples, nr_class*(nr_class-1)/2], with the data length
matching the shape in both cases. -/
theorem claim_C1 (eng : Engine) (junk : Nat → SvmNode) (x : DMat)
    (param : SvmParameter) (m : SvmModel) :
    (decision_function eng junk x param m).ndim
        = (if regressionType param.svm_type then 1 else 2)
    ∧ (decision_function eng junk x param m).shape
        = (if regressionType param.svm_type then [x.n_samples]
           else [x.n_samples, m.nr_class * (m.nr_class - 1) / 2])
    ∧ (decision_function eng junk x param m).data.length
        = (if regressionType param.svm_type then x.n_samples
           else x.n_samples * (m.nr_class * (m.nr_class - 1) / 2)) := by
  by_cases h : regressionType param.svm_type
  · simp [decision_function, effectiveModel_param, h, batchLoop_init]
  · simp [decision_function, effectiveModel_param, effectiveModel_nr_class, h,
      batchLoop_init, flatten_map_range_length]
    exact sum_map_length_const _ _ _

/-- Claim C4: in predict, decision_function, predict_proba and
save_svm_model the decoded model's embedded parameter sub-record is
overwritten with the caller-supplied parameter record before anything
observable happens: the effective model carries the caller parameter,
and replacing the mapping's embedded parameter by any other record q
cannot change any of the four operations. -/
theorem claim_C4 (eng : Engine) (junk : Nat → SvmNode) (x : DMat)
    (xr : Except RubyErr DMat) (param q : SvmParameter) (m : SvmModel)
    (path : String) :
    (effectiveModel param m).param = param
    ∧ predict eng junk x param (effectiveModel q m) = predict eng junk x param m
    ∧ decision_function eng junk x param (effectiveModel q m)
        = decision_function eng junk x param m
    ∧ predict_proba eng junk xr param (effectiveModel q m)
        = predict_proba eng junk xr param m
    ∧ save_svm_model eng path param (effectiveModel q m)
        = save_svm_model eng path param m :=
  ⟨rfl, rfl, rfl, rfl, rfl⟩

/-- Claim C8: reusing one node buffer across all rows of a prediction
batch is observationally equivalent to a fresh per-row sparse
conversion, in predict, decision_function and predict_proba. -/
theorem claim_C8 (eng : Engine) (junk : Nat → SvmNode) (x : DMat)
    (xr : Except RubyErr DMat) (param : SvmParameter) (m : SvmModel) :
    predict eng junk x param m = predictFresh eng x param m
    ∧ decision_function eng junk x param m = decision_functionFresh eng x param m
    ∧ predict_proba eng junk xr param m = predict_probaFresh eng xr param m :=
  ⟨predict_eq_fresh eng junk x param m,
   decision_function_eq_fresh eng junk x param m,
   predict_proba_eq_fresh eng junk xr param m⟩

/-- Claim C10: on the unsupported branch, predict_proba returns the
absent result for every input x, including one whose cast would raise,
without reading or validating x. -/
theorem claim_C10 (eng : Engine) (junk : Nat → SvmNode) (xr : Except RubyErr DMat)
    (param : SvmParameter) (m : SvmModel) (h : supportedProba param m = false) :
    predict_proba eng junk xr param m = Except.ok none := by
  simp [predict_proba, h]

/-- Witness for C10: a regression-typed call with an uncastable x still
returns the absent result and no error. -/
theorem claim_C10_witness :
    predict_proba eng0 junk0 (Except.error RubyErr.typeError) pReg mProb
      = Except.ok none :=
  claim_C10 eng0 junk0 (Except.error RubyErr.typeError) pReg mProb (by decide)

/-- Claim C3: for a castable input, predict_proba yields a present
probability matrix of shape [n_samples, nr_class] exactly when the
effective svm_type is C_SVC or NU_SVC and both probA and probB are
present on the decoded model; in every other case it yields the absent
result without raising. -/
theorem claim_C3 (eng : Engine) (junk : Nat → SvmNode) (x : DMat)
    (param : SvmParameter) (m : SvmModel) :
    (supportedProba param m = false →
      predict_proba eng junk (Except.ok x) param m = Except.ok none)
    ∧ (supportedProba param m = true →
      ∃ a : NArr, predict_proba eng junk (Except.ok x) param m = Except.ok (some a)
        ∧ a.ndim = 2 ∧ a.shape = [x.n_samples, m.nr_class]
        ∧ a.data.length = x.n_samples * m.nr_class)
    ∧ supportedProba param m
        = ((param.svm_type == SvmType.C_SVC || param.svm_type == SvmType.NU_SVC)
            && m.probA.isSome && m.probB.isSome) := by
  refine ⟨?_, ?_, rfl⟩
  · intro h
    simp [predict_proba, h]
  · intro h
    refine ⟨⟨2, [x.n_samples, m.nr_class],
      ((List.range x.n_samples).map (fun i => (List.range m.nr_class).map
        (eng.svm_predict_probability (effectiveModel param m) (sampleNodes x i)))).flatten⟩,
      ?_, rfl, rfl, flatten_map_range_length _ _ _⟩
    simp [predict_proba, h, batchLoop_init, effectiveModel_nr_class]

/-- Witness for C3: with probability calibration and a C_SVC caller
parameter the result is present; with an EPSILON_SVR caller parameter
it is absent. -/
theorem claim_C3_witness :
    predict_proba eng0 junk0 (Except.ok x2) pReg mProb = Except.ok none
    ∧ ∃ a : NArr, predict_proba eng0 junk0 (Except.ok x2) defaultParam mProb
        = Except.ok (some a) ∧ a.ndim = 2 ∧ a.shape = [2, 2] ∧ a.data.length = 4 := by
  constructor
  · exact (claim_C3 eng0 junk0 x2 pReg mProb).1 (by decide)
  · have h := (claim_C3 eng0 junk0 x2 defaultParam mProb).2.1 (by decide)
    simpa [x2, mProb] using h

/-- Claim C5, counterexample: with the model mapping held fixed
(embedded svm_type C_SVC, nr_class 2), changing only the caller
parameter's svm_type changes the branch taken by decision_function
(ndim 2 versus 1) and by predict_proba (present versus absent), so the
dispatch does not depend on the model record alone. -/
theorem claim_C5_counterexample :
    (decision_function eng0 junk0 x2 defaultParam m0base).ndim
      ≠ (decision_function eng0 junk0 x2 pReg m0base).ndim
    ∧ (predict_proba eng0 junk0 (Except.ok x2) defaultParam mProb).toOption
      ≠ (predict_proba eng0 junk0 (Except.ok x2) pReg mProb).toOption := by
  constructor
  · decide
  · decide

/-- Claim C5, amended: the branch taken by decision_function and
predict_proba is determined by the effective svm_type — the
caller-supplied parameter's svm_type, which overwrites the model's
embedded parameter before dispatch — together with the model's
nr_class and probA/probB; the model mapping's own embedded parameter
is irrelevant. -/
theorem claim_C5 (eng : Engine) (junk : Nat → SvmNode) (x : DMat)
    (xr : Except RubyErr DMat) (param q : SvmParameter) (m : SvmModel) :
    (decision_function eng junk x param m).ndim
        = (if regressionType param.svm_type then 1 else 2)
    ∧ decision_function eng junk x param (effectiveModel q m)
        = decision_function eng junk x param m
    ∧ ((predict_proba eng junk xr param m = Except.ok none)
        ↔ supportedProba param m = false)
    ∧ predict_proba eng junk xr param (effectiveModel q m)
        = predict_proba eng junk xr param m := by
  refine ⟨?_, rfl, ?_, rfl⟩
  · by_cases h : regressionType param.svm_type
    · simp [decision_function, effectiveModel_param, h]
    · simp [decision_function, effectiveModel_param, h]
  · by_cases h : supportedProba param m
    · cases xr with
      | error e => simp [predict_proba, h]
      | ok xx => simp [predict_proba, h]
    · simp [predict_proba, h]

/-- Claim C2: the problem built for training and cross-validation turns
row i of a rectangular dense matrix into a node array of length
n_features + 1 whose j-th node is {j + 1, x[i][j]} with the sentinel
{-1, 0} last, copies the target vector verbatim, and hands exactly this
problem to the engine; a dense row [v1, v2, v3] yields
[{1, v1}, {2, v2}, {3, v3}, {-1, 0}]. -/
theorem claim_C2 (x : DMat) (y : List ℚ) (i j : Nat) (v1 v2 v3 : ℚ)
    (eng : Engine) (param : SvmParameter) (nfolds : Int)
    (_hrect : x.data.length = x.n_samples * x.n_features)
    (hi : i < x.n_samples) (hj : j < x.n_features)
    (hy : y.length = x.n_samples) :
    (buildProblem x y).l = x.n_samples
    ∧ (buildProblem x y).y = y
    ∧ (buildProblem x y).x[i]? = some (sampleNodes x i)
    ∧ (sampleNodes x i).length = x.n_features + 1
    ∧ (sampleNodes x i)[j]? = some ⟨(j : Int) + 1, x.elem i j⟩
    ∧ (sampleNodes x i)[x.n_features]? = some ⟨-1, 0⟩
    ∧ train eng x y (Except.ok param) = Except.ok (eng.svm_train (buildProblem x y) param)
    ∧ cross_validation eng x y (Except.ok param) nfolds
        = Except.ok ((List.range x.n_samples).map
            (eng.svm_cross_validation (buildProblem x y) param nfolds))
    ∧ sampleNodes ⟨1, 3, [v1, v2, v3]⟩ 0 = [⟨1, v1⟩, ⟨2, v2⟩, ⟨3, v3⟩, ⟨-1, 0⟩] := by
  refine ⟨rfl, map_getD_range y x.n_samples hy, ?_, sampleNodes_length x i, ?_,
    sampleNodes_sentinel x i, rfl, rfl, ?_⟩
  · simp [buildProblem, List.getElem?_range hi]
  · have hjl : j < ((List.range x.n_features).map
        (fun (k : Nat) => (⟨(k : Int) + 1, x.elem i k⟩ : SvmNode))).length := by
      simp [hj]
    unfold sampleNodes
    rw [List.getElem?_append_left hjl, List.getElem?_map, List.getElem?_range hj]
    rfl
  · simp [sampleNodes, DMat.elem, List.range_succ]

/-- Witness for C2 at a concrete 2-by-2 matrix and matching targets. -/
theorem claim_C2_witness :
    (buildProblem x2 [7, 9]).y = [7, 9]
    ∧ (sampleNodes x2 0)[1]? = some ⟨2, x2.elem 0 1⟩ := by
  have h := claim_C2 x2 [7, 9] 0 1 1 2 3 eng0 defaultParam 3
    (by decide) (by decide) (by decide) (by decide)
  exact ⟨h.2.1, h.2.2.2.2.1⟩

/-- Claim C6 (code behaviour at the claimed failing input): with a
2-sample matrix and a length-1 target vector, train and
cross_validation raise no ShapeMismatchError; they build a problem with
l = 2 whose second target is read from beyond the end of y, and invoke
the engine, producing a result. -/
theorem claim_C6 :
    train eng0 x2 [5] (Except.ok defaultParam) = Except.ok m0base
    ∧ cross_validation eng0 x2 [5] (Except.ok defaultParam) 3 = Except.ok [0, 0]
    ∧ (buildProblem x2 [5]).l = 2
    ∧ ([(5 : ℚ)]).length = 1
    ∧ (buildProblem x2 [5]).y = [5, 0] := by
  refine ⟨by decide, by decide, rfl, rfl, by decide⟩

/-- Claim C7: load_svm_model never raises, returns both slots absent
exactly when the engine's load fails, returns both slots populated on
success, and releases the native model before returning (the live set
is unchanged on every path). -/
theorem claim_C7 (eng : Engine) (path : String) (h : Heap) :
    ((load_svm_model eng path h).2).live = h.live
    ∧ (eng.svm_load_model path = none →
        (load_svm_model eng path h).1 = (none, none))
    ∧ (∀ m, eng.svm_load_model path = some m →
        (load_svm_model eng path h).1 = (some m.param, some m)) := by
  cases hm : eng.svm_load_model path with
  | none =>
      refine ⟨by simp [load_svm_model, hm], fun _ => by simp [load_svm_model, hm], ?_⟩
      intro m hsome
      exact absurd hsome (by simp)
  | some m =>
      refine ⟨?_, ?_, ?_⟩
      · simp [load_svm_model, hm, Heap.alloc, Heap.free]
      · intro hnone
        exact absurd hnone (by simp)
      · intro m2 hsome
        have hq : m = m2 := Option.some.inj hsome
        subst hq
        simp [load_svm_model, hm]

/-- Witness for C7: a failing load yields two absent slots; a
succeeding load yields the transcribed parameter and model. -/
theorem claim_C7_witness :
    (load_svm_model eng0 "a" h0).1 = (none, none)
    ∧ (load_svm_model engOk "a" h0).1 = (some mProb.param, some mProb) :=
  ⟨(claim_C7 eng0 "a" h0).2.1 rfl, (claim_C7 engOk "a" h0).2.2 mProb rfl⟩

/-- Claim C9 (code behaviour on the decode-failure path): when the
model hash fails to decode after the parameter hash was decoded, the
raised exception propagates past the frees and the parameter's native
allocation (id 0) stays live, while the happy path releases every
allocation. -/
theorem claim_C9 :
    ((predictTracked eng0 junk0 (Except.ok x2) (Except.ok defaultParam)
        (Except.error RubyErr.invalidModelError) h0).2).live = [0]
    ∧ (predictTracked eng0 junk0 (Except.ok x2) (Except.ok defaultParam)
        (Except.error RubyErr.invalidModelError) h0).1
      = Except.error RubyErr.invalidModelError
    ∧ ((predictTracked eng0 junk0 (Except.ok x2) (Except.ok defaultParam)
        (Except.ok m0base) h0).2).live = [] := by
  refine ⟨by decide, by decide, by decide⟩
